import Mathlib

/-!
Verification of the carousel widget in src/App.tsx: the reducer-driven
state machine (carouselReducer), the geometry helpers of the
CarouselAnimation controller (getTargetX, getClosestIndex, goTo) and the
pointer gesture handlers (handlePointerDown, handlePointerUp), embedded
shallowly.  DOM pixel quantities are modelled as rationals, JavaScript
numbers holding indices as integers; the JavaScript remainder operator
is Int.tmod (truncated remainder, matching the sign behaviour of the
percent operator on JavaScript numbers).
-/

/-- One entry of the fixed image dataset (TS interface CarouselImage). -/
structure CarouselImage where
  id : Nat
  url : String
  title : String
  author : String
deriving DecidableEq, Repr

/-- The module-level images array of src/App.tsx, verbatim. -/
def images : List CarouselImage :=
  [ ⟨0, "https://picsum.photos/id/10/800/800", "Mountain Lake", "Alejandro Escamilla"⟩,
    ⟨1, "https://picsum.photos/id/20/800/800", "Foggy Pier", "Paul Jarvis"⟩,
    ⟨2, "https://picsum.photos/id/30/800/800", "City at Night", "Paul Jarvis"⟩,
    ⟨3, "https://picsum.photos/id/42/800/800", "Workspace", "Tina Rataj"⟩,
    ⟨4, "https://picsum.photos/id/54/800/800", "Vintage Camera", "Luke Chesser"⟩,
    ⟨5, "https://picsum.photos/id/68/800/800", "Autumn Road", "Marcin Czerwinski"⟩,
    ⟨6, "https://picsum.photos/id/75/800/800", "Reading Time", "Verne Ho"⟩ ]

/-- Status field of the FSM state: the TS string union idle / animating. -/
inductive CarouselStatus where
  | idle
  | animating
deriving DecidableEq, Repr

/-- CarouselState of src/App.tsx.  The TS fields are numbers; the reducer
never range-checks them (INTERRUPT and GOTO store their payload as is),
so they are modelled as unrestricted integers. -/
structure CarouselState where
  currentIndex : Int
  fromIndex : Int
  status : CarouselStatus
deriving DecidableEq, Repr

/-- CarouselAction of src/App.tsx. -/
inductive CarouselAction where
  | NEXT
  | PREV
  | GOTO (payload : Int)
  | ANIMATION_END
  | INTERRUPT (payload : Int)
deriving DecidableEq, Repr

/-- initialCarouselState of src/App.tsx. -/
def initialCarouselState : CarouselState :=
  { currentIndex := 0, fromIndex := 0, status := .idle }

/-- carouselReducer of src/App.tsx (lines 234-266).  The TS default case
is unreachable because CarouselAction is a closed union, so the match is
exhaustive here.  The JS percent operator is Int.tmod. -/
def carouselReducer (state : CarouselState) (action : CarouselAction) : CarouselState :=
  match action with
  | .NEXT =>
      let nextIndex := (state.currentIndex + 1).tmod (images.length : Int)
      { state with status := .animating, fromIndex := state.currentIndex,
                   currentIndex := nextIndex }
  | .PREV =>
      let prevIndex := (state.currentIndex - 1 + (images.length : Int)).tmod (images.length : Int)
      { state with status := .animating, fromIndex := state.currentIndex,
                   currentIndex := prevIndex }
  | .GOTO payload =>
      if state.currentIndex = payload then state
      else { state with status := .animating, fromIndex := state.currentIndex,
                        currentIndex := payload }
  | .INTERRUPT payload =>
      { state with status := .idle, currentIndex := payload, fromIndex := payload }
  | .ANIMATION_END =>
      { state with status := .idle, fromIndex := state.currentIndex }

/-- Actions whose payload, when present, is a valid card index, as in
claim C1: NEXT, PREV, ANIMATION_END, and GOTO or INTERRUPT with payload
in the interval from 0 to the card count. -/
inductive ValidAction : CarouselAction → Prop
  | NEXT : ValidAction .NEXT
  | PREV : ValidAction .PREV
  | GOTO (i : Int) : 0 ≤ i → i < (images.length : Int) → ValidAction (.GOTO i)
  | ANIMATION_END : ValidAction .ANIMATION_END
  | INTERRUPT (i : Int) : 0 ≤ i → i < (images.length : Int) → ValidAction (.INTERRUPT i)

/-- States reachable from initialCarouselState by valid actions. -/
inductive Reachable : CarouselState → Prop
  | init : Reachable initialCarouselState
  | step (s : CarouselState) (a : CarouselAction) :
      Reachable s → ValidAction a → Reachable (carouselReducer s a)

/-- Live DOM geometry of one carousel card: its offsetLeft and
offsetWidth as read by CarouselAnimation.  Pixel values are rationals. -/
structure Card where
  offsetLeft : ℚ
  offsetWidth : ℚ
deriving DecidableEq, Repr

/-- The DOM facts CarouselAnimation reads: whether the carousel element
and its parent element exist, the parent offsetWidth, and the card
children (gsap.utils.toArray of carouselEl.children). -/
structure Geometry where
  carouselPresent : Bool
  parentPresent : Bool
  parentWidth : ℚ
  cards : List Card
deriving DecidableEq, Repr

/-- CarouselAnimation.getTargetX (src/App.tsx lines 85-93): the x
translation centering the given card, 0 when the element, its parent or
the index is unusable.  The inner card null check mirrors the TS guard
on this.cards at the index. -/
def getTargetX (g : Geometry) (index : Int) : ℚ :=
  if g.carouselPresent = false ∨ index < 0 ∨ (g.cards.length : Int) ≤ index ∨
      g.parentPresent = false then 0
  else
    match g.cards.get? index.toNat with
    | none => 0
    | some card => g.parentWidth / 2 - card.offsetLeft - card.offsetWidth / 2

/-- Distance scanned by getClosestIndex at card index i for track
position currentX. -/
def distAt (g : Geometry) (currentX : ℚ) (i : Nat) : ℚ :=
  |currentX - getTargetX g (i : Int)|

/-- One iteration of the getClosestIndex loop.  The accumulator is the
pair of closestIndex and minDistance; minDistance none stands for the
initial Infinity, which every finite distance beats. -/
def closestStep (g : Geometry) (currentX : ℚ) (acc : Int × Option ℚ) (i : Nat) :
    Int × Option ℚ :=
  let distance := distAt g currentX i
  match acc.2 with
  | none => ((i : Int), some distance)
  | some m => if distance < m then ((i : Int), some distance) else acc

/-- CarouselAnimation.getClosestIndex (src/App.tsx lines 55-70): linear
scan over the cards for the index minimising the distance between the
current track x and the target x of that card.  currentX is the live gsap x
property of the track, taken here as a parameter.  Starts from
closestIndex equal to minus one and minDistance Infinity, exactly as the
TS loop does. -/
def getClosestIndex (g : Geometry) (currentX : ℚ) : Int :=
  if g.carouselPresent = false then 0
  else ((List.range g.cards.length).foldl (closestStep g currentX) (-1, none)).1

/-- The push distance constant of CarouselAnimation.goTo. -/
def pushAmount : ℚ := 40

/-- The per-card x of the first keyframe in CarouselAnimation.goTo: cards
before the destination are pushed by minus pushAmount, cards after it by
plus pushAmount, the destination card itself is not pushed. -/
def pushKeyframeX (toIndex : Int) (i : Nat) : ℚ :=
  if (i : Int) < toIndex then -pushAmount
  else if toIndex < (i : Int) then pushAmount
  else 0

/-- The tweens CarouselAnimation.goTo starts: the track tween target x,
the per-transformer x of the push keyframe when it runs (none when
fromIndex equals toIndex and only the settle phase runs), and the
per-transformer settle target x.  In the JSX every card holds exactly
one card-transformer child, so the transformer list has one entry per
card and the keyframe callback index i is the card index. -/
structure GoToEffect where
  trackTarget : ℚ
  pushOffsets : Option (List ℚ)
  settleOffsets : List ℚ
deriving DecidableEq, Repr

/-- CarouselAnimation.goTo (src/App.tsx lines 100-155): none when the
destination index is out of range (early return, nothing is tweened),
otherwise the effect started. -/
def goTo (g : Geometry) (fromIndex toIndex : Int) : Option GoToEffect :=
  if toIndex < 0 ∨ (g.cards.length : Int) ≤ toIndex then none
  else some
    { trackTarget := getTargetX g toIndex,
      pushOffsets :=
        if fromIndex ≠ toIndex then
          some ((List.range g.cards.length).map (pushKeyframeX toIndex))
        else none,
      settleOffsets := (List.range g.cards.length).map (fun _ => 0) }

/-- The dragInfo ref of the App component: start client x, track x at
drag start, and the captured pointer id (null before any drag). -/
structure DragInfo where
  isDragging : Bool
  startX : ℚ
  startCarouselX : ℚ
  pointerId : Option Int
deriving DecidableEq, Repr

/-- The slice of React pointer events the handlers read. -/
structure PointerEvent where
  button : Int
  clientX : ℚ
  pointerId : Int
deriving DecidableEq, Repr

/-- The App component state the pointer handlers touch: the reducer
state, the displayed image, the DOM geometry, the live track x, the drag
session, and whether the in-flight tweens were killed (masterTimeline,
mainTween, cardsTimeline and the tweens of the track element). -/
structure AppModel where
  state : CarouselState
  displayedImage : Option CarouselImage
  geometry : Geometry
  trackX : ℚ
  dragInfo : DragInfo
  tweensKilled : Bool
deriving DecidableEq, Repr

/-- The images array indexed by a JS number: undefined (none) outside
the array bounds. -/
def imageAt (i : Int) : Option CarouselImage :=
  if 0 ≤ i then images.get? i.toNat else none

/-- handlePointerDown of src/App.tsx (lines 294-324).  Non-primary
buttons are ignored.  While animating, the handler kills the in-flight
tweens, reads the closest index from the frozen track position,
dispatches INTERRUPT with it and shows that image; in every case it then
opens a drag session from the current track x and captures the pointer.
Killing a tween leaves the track x where it is, so the closest index is
read from the unchanged trackX. -/
def handlePointerDown (m : AppModel) (e : PointerEvent) : AppModel :=
  if e.button ≠ 0 then m
  else
    let m1 :=
      if m.state.status = .animating then
        let closestIndex := getClosestIndex m.geometry m.trackX
        { m with
          tweensKilled := true,
          state := carouselReducer m.state (.INTERRUPT closestIndex),
          displayedImage := imageAt closestIndex }
      else m
    { m1 with
      dragInfo :=
        { isDragging := true, startX := e.clientX, startCarouselX := m1.trackX,
          pointerId := some e.pointerId } }

/-- The card width read in handlePointerUp: offsetWidth of the first
element matching the carousel-card selector under the carousel element,
300 when the element or the card is missing (the TS nullish fallback). -/
def firstCardWidth (g : Geometry) : ℚ :=
  if g.carouselPresent then
    match g.cards.head? with
    | some card => card.offsetWidth
    | none => 300
  else 300

/-- What one handlePointerUp call produces: the updated component model,
the reducer action it dispatches (none when it dispatches nothing), and
the goTo call it makes on the controller (from and to indices), none
when it makes none. -/
structure PointerUpResult where
  model : AppModel
  dispatched : Option CarouselAction
  goToCall : Option (Int × Int)
deriving DecidableEq, Repr

/-- handlePointerUp of src/App.tsx (lines 332-353), also bound to
pointer cancel and pointer leave: ignored unless a drag session with
this pointer id is active; otherwise compares the final deltaX with the
threshold of a fifth of the card width and either dispatches NEXT
(swipe left past the threshold), dispatches PREV (swipe right past the
threshold) or snaps back via goTo with the current index as both
arguments; the drag session ends on every path. -/
def handlePointerUp (m : AppModel) (e : PointerEvent) : PointerUpResult :=
  if m.dragInfo.isDragging = false ∨ m.dragInfo.pointerId ≠ some e.pointerId then
    { model := m, dispatched := none, goToCall := none }
  else
    let deltaX := e.clientX - m.dragInfo.startX
    let threshold := firstCardWidth m.geometry / 5
    let m1 := { m with dragInfo := { m.dragInfo with isDragging := false } }
    if deltaX < -threshold then
      { model := m1, dispatched := some .NEXT, goToCall := none }
    else if threshold < deltaX then
      { model := m1, dispatched := some .PREV, goToCall := none }
    else
      { model := m1, dispatched := none,
        goToCall := some (m.state.currentIndex, m.state.currentIndex) }

lemma images_length : images.length = 7 := rfl

/-- C1: every state reachable from the initial state by reducer actions
whose payloads are valid indices satisfies the commit invariant: status
idle implies fromIndex equals currentIndex; moreover ANIMATION_END
always returns to idle with fromIndex set to currentIndex, and
INTERRUPT i always returns to idle with both indices set to i. -/
theorem C1_idle_commit_invariant :
    (∀ s, Reachable s → s.status = .idle → s.fromIndex = s.currentIndex) ∧
    (∀ s, (carouselReducer s .ANIMATION_END).status = .idle ∧
      (carouselReducer s .ANIMATION_END).fromIndex =
        (carouselReducer s .ANIMATION_END).currentIndex) ∧
    (∀ s i, (carouselReducer s (.INTERRUPT i)).status = .idle ∧
      (carouselReducer s (.INTERRUPT i)).fromIndex = i ∧
      (carouselReducer s (.INTERRUPT i)).currentIndex = i) := by
  refine ⟨?_, fun s => ⟨rfl, rfl⟩, fun s i => ⟨rfl, rfl, rfl⟩⟩
  intro s h
  induction h with
  | init => intro _; rfl
  | step s a _ hv ih =>
    cases hv with
    | NEXT => simp [carouselReducer]
    | PREV => simp [carouselReducer]
    | GOTO i h0 h1 =>
      by_cases hc : s.currentIndex = i
      · simpa [carouselReducer, hc] using ih
      · simp [carouselReducer, hc]
    | ANIMATION_END => intro _; rfl
    | INTERRUPT i h0 h1 => intro _; rfl

/-- C1 witness: the invariant instantiated at the concrete reachable
state obtained by NEXT followed by ANIMATION_END. -/
theorem C1_idle_commit_invariant_witness :
    (carouselReducer (carouselReducer initialCarouselState .NEXT) .ANIMATION_END).fromIndex =
      (carouselReducer (carouselReducer initialCarouselState .NEXT) .ANIMATION_END).currentIndex :=
  C1_idle_commit_invariant.1 _
    (Reachable.step _ _ (Reachable.step _ _ Reachable.init ValidAction.NEXT)
      ValidAction.ANIMATION_END) rfl

/-- C2: from any in-range currentIndex, NEXT advances currentIndex by
one modulo the card count and PREV retreats by one modulo the card
count, both recording the old currentIndex in fromIndex and setting
status to animating; PREV from index 0 wraps to 6. -/
theorem C2_next_prev_wrap (s : CarouselState)
    (h0 : 0 ≤ s.currentIndex) (h1 : s.currentIndex < (images.length : Int)) :
    carouselReducer s .NEXT =
      { currentIndex := (s.currentIndex + 1) % (images.length : Int),
        fromIndex := s.currentIndex, status := .animating } ∧
    carouselReducer s .PREV =
      { currentIndex := (s.currentIndex - 1 + (images.length : Int)) % (images.length : Int),
        fromIndex := s.currentIndex, status := .animating } ∧
    (s.currentIndex = 0 → (carouselReducer s .PREV).currentIndex = 6) := by
  refine ⟨?_, ?_, ?_⟩
  · simp only [carouselReducer, CarouselState.mk.injEq]
    exact ⟨Int.tmod_eq_emod (by omega) (by simp [images_length]), trivial, trivial⟩
  · simp only [carouselReducer, CarouselState.mk.injEq]
    refine ⟨Int.tmod_eq_emod ?_ (by simp [images_length]), trivial, trivial⟩
    simp only [images_length] at *
    omega
  · intro hc
    simp only [carouselReducer, images_length, hc]
    decide

/-- C2 witness: PREV at the initial state wraps from 0 to 6. -/
theorem C2_next_prev_wrap_witness :
    0 ≤ initialCarouselState.currentIndex ∧
    (carouselReducer initialCarouselState .PREV).currentIndex = 6 :=
  ⟨by decide, (C2_next_prev_wrap initialCarouselState (by decide) (by decide)).2.2 rfl⟩

/-- C3 counterexample: the reducer does not range-check the GOTO
payload; GOTO 7 from the initial state drives currentIndex to 7, which
is outside the valid range for the seven-card dataset. -/
theorem C3_goto_counterexample :
    (carouselReducer initialCarouselState (.GOTO 7)).currentIndex = 7 ∧
    ¬ (carouselReducer initialCarouselState (.GOTO 7)).currentIndex <
        (images.length : Int) := by
  decide

/-- C3 amended: GOTO with the current index returns the state object
unchanged; GOTO with any other payload — in range or not, the reducer
performs no range check — sets fromIndex to the old currentIndex,
currentIndex to the payload, and status to animating. -/
theorem C3_goto_no_op_and_retarget (s : CarouselState) (i : Int) :
    (i = s.currentIndex → carouselReducer s (.GOTO i) = s) ∧
    (i ≠ s.currentIndex →
      carouselReducer s (.GOTO i) =
        { currentIndex := i, fromIndex := s.currentIndex, status := .animating }) := by
  constructor
  · intro h
    simp only [carouselReducer]
    rw [if_pos h.symm]
  · intro h
    simp only [carouselReducer]
    rw [if_neg (fun hc => h hc.symm)]

/-- C3 witness: both branches at concrete inputs: GOTO 0 at the initial
state is the identity, GOTO 3 retargets. -/
theorem C3_goto_no_op_and_retarget_witness :
    carouselReducer initialCarouselState (.GOTO 0) = initialCarouselState ∧
    carouselReducer initialCarouselState (.GOTO 3) =
      { currentIndex := 3, fromIndex := initialCarouselState.currentIndex,
        status := .animating } :=
  ⟨(C3_goto_no_op_and_retarget initialCarouselState 0).1 (by decide),
   (C3_goto_no_op_and_retarget initialCarouselState 3).2 (by decide)⟩

/-- C10: the reducer applies INTERRUPT unconditionally: from every
state, idle or animating, and for every integer payload, range-checked
or not, the result is exactly the state with currentIndex and fromIndex
both equal to the payload and status idle. -/
theorem C10_interrupt_unconditional (s : CarouselState) (i : Int) :
    carouselReducer s (.INTERRUPT i) =
      { currentIndex := i, fromIndex := i, status := .idle } := rfl

lemma getTargetX_eq_zero (g : Geometry) (i : Int)
    (h : g.carouselPresent = false ∨ i < 0 ∨ (g.cards.length : Int) ≤ i ∨
      g.parentPresent = false) :
    getTargetX g i = 0 := by
  unfold getTargetX
  rw [if_pos h]

/-- C4: for every in-range index of a measurable carousel (element and
parent present), getTargetX is the parent half width minus the card
offsetLeft minus half the card width, equivalently the translated card
center coincides with the parent center; for an out-of-range index or
an unmeasurable DOM it is 0. -/
theorem C4_target_centers_card :
    (∀ g (i : Nat) (card : Card), g.carouselPresent = true → g.parentPresent = true →
      g.cards.get? i = some card →
      getTargetX g (i : Int) =
        g.parentWidth / 2 - card.offsetLeft - card.offsetWidth / 2 ∧
      g.parentWidth / 2 =
        card.offsetLeft + getTargetX g (i : Int) + card.offsetWidth / 2) ∧
    (∀ g (i : Int), (g.carouselPresent = false ∨ i < 0 ∨ (g.cards.length : Int) ≤ i ∨
      g.parentPresent = false) → getTargetX g i = 0) := by
  constructor
  · intro g i card hcar hpar hcard
    have hlt : i < g.cards.length := by
      rcases List.get?_eq_some.mp hcard with ⟨h, _⟩
      exact h
    have hx : getTargetX g (i : Int) =
        g.parentWidth / 2 - card.offsetLeft - card.offsetWidth / 2 := by
      unfold getTargetX
      rw [if_neg]
      · rw [Int.toNat_natCast, hcard]
      · push_neg
        refine ⟨by simp [hcar], by omega, by omega, by simp [hpar]⟩
    exact ⟨hx, by rw [hx]; ring⟩
  · exact getTargetX_eq_zero

/-- C4 witness: a concrete two-card geometry where the second card, at
offsetLeft 100 and width 100, gets target x 250 under a parent of width
800, so its shifted center sits at the parent center 400. -/
theorem C4_target_centers_card_witness :
    getTargetX (Geometry.mk true true 800 [⟨0, 100⟩, ⟨100, 100⟩]) ((1 : Nat) : Int) =
      (800 : ℚ) / 2 - 100 - (100 : ℚ) / 2 ∧
    (800 : ℚ) / 2 = 100 +
      getTargetX (Geometry.mk true true 800 [⟨0, 100⟩, ⟨100, 100⟩]) ((1 : Nat) : Int) +
      (100 : ℚ) / 2 :=
  C4_target_centers_card.1 (Geometry.mk true true 800 [⟨0, 100⟩, ⟨100, 100⟩]) 1
    ⟨100, 100⟩ rfl rfl rfl

lemma closest_fold_argmin (g : Geometry) (cx : ℚ) :
    ∀ n : Nat, 0 < n →
      ∃ r : Nat, (List.range n).foldl (closestStep g cx) (-1, none) =
          ((r : Int), some (distAt g cx r)) ∧
        r < n ∧ (∀ i, i < n → distAt g cx r ≤ distAt g cx i) ∧
        (∀ j, j < r → distAt g cx r < distAt g cx j) := by
  intro n hn
  induction n with
  | zero => omega
  | succ m ih =>
    rcases Nat.eq_zero_or_pos m with hm | hm
    · subst hm
      refine ⟨0, ?_, by omega, ?_, by omega⟩
      · rfl
      · intro i hi
        have h0 : i = 0 := by omega
        subst h0
        exact le_refl _
    · rcases ih hm with ⟨r, hfold, hr, hmin, hfirst⟩
      rw [List.range_succ, List.foldl_append, hfold]
      simp only [List.foldl_cons, List.foldl_nil]
      by_cases hcmp : distAt g cx m < distAt g cx r
      · refine ⟨m, ?_, by omega, ?_, ?_⟩
        · simp [closestStep, hcmp]
        · intro i hi
          rcases Nat.lt_succ_iff_lt_or_eq.mp hi with hi2 | hi2
          · exact le_of_lt (lt_of_lt_of_le hcmp (hmin i hi2))
          · subst hi2
            exact le_refl _
        · intro j hj
          exact lt_of_lt_of_le hcmp (hmin j hj)
      · refine ⟨r, ?_, by omega, ?_, hfirst⟩
        · simp [closestStep, hcmp]
        · intro i hi
          rcases Nat.lt_succ_iff_lt_or_eq.mp hi with hi2 | hi2
          · exact hmin i hi2
          · subst hi2
            exact le_of_not_lt hcmp

/-- C5: on a present carousel with at least one card, getClosestIndex
returns a valid card index whose scanned distance is a minimum over all
cards, and every strictly earlier index has strictly greater distance,
so on ties the first index attaining the minimum wins. -/
theorem C5_closest_index_minimises (g : Geometry) (cx : ℚ)
    (hcar : g.carouselPresent = true) (hne : g.cards ≠ []) :
    ∃ r : Nat, getClosestIndex g cx = (r : Int) ∧ r < g.cards.length ∧
      (∀ i, i < g.cards.length → distAt g cx r ≤ distAt g cx i) ∧
      (∀ j, j < r → distAt g cx r < distAt g cx j) := by
  have hn : 0 < g.cards.length := List.length_pos.mpr hne
  rcases closest_fold_argmin g cx g.cards.length hn with ⟨r, hfold, hr, hmin, hfirst⟩
  refine ⟨r, ?_, hr, hmin, hfirst⟩
  unfold getClosestIndex
  rw [if_neg (by simp [hcar]), hfold]

/-- C5 witness: with two cards of width 100 at offsetLeft 0 and 100
under a parent of width 800 and the track at x 0, the scan distances
are 350 and 250 and getClosestIndex picks index 1. -/
theorem C5_closest_index_minimises_witness :
    ∃ r : Nat,
      getClosestIndex (Geometry.mk true true 800 [⟨0, 100⟩, ⟨100, 100⟩]) 0 = (r : Int) ∧
      r < (Geometry.mk true true 800 [⟨0, 100⟩, ⟨100, 100⟩]).cards.length ∧
      (∀ i, i < (Geometry.mk true true 800 [⟨0, 100⟩, ⟨100, 100⟩]).cards.length →
        distAt (Geometry.mk true true 800 [⟨0, 100⟩, ⟨100, 100⟩]) 0 r ≤
          distAt (Geometry.mk true true 800 [⟨0, 100⟩, ⟨100, 100⟩]) 0 i) ∧
      (∀ j, j < r →
        distAt (Geometry.mk true true 800 [⟨0, 100⟩, ⟨100, 100⟩]) 0 r <
          distAt (Geometry.mk true true 800 [⟨0, 100⟩, ⟨100, 100⟩]) 0 j) :=
  C5_closest_index_minimises (Geometry.mk true true 800 [⟨0, 100⟩, ⟨100, 100⟩]) 0 rfl
    (by decide)

/-- C9 counterexample: with the carousel element present but the card
list empty, getClosestIndex does not return the neutral index 0: the
scan body never runs and the initial closestIndex value minus one is
returned unchanged. -/
theorem C9_empty_cards_counterexample :
    getClosestIndex (Geometry.mk true true 800 []) 0 = -1 ∧
    getClosestIndex (Geometry.mk true true 800 []) 0 ≠ 0 := by
  constructor
  · rfl
  · intro h
    exact absurd h (by decide)

/-- C9 amended: getTargetX returns the neutral offset 0 whenever the
carousel element is missing, the index is out of range (in particular
whenever the card list is empty), or the parent element is missing;
getClosestIndex returns the neutral index 0 when the carousel element
is missing, and also when the parent element is missing while at least
one card exists (all scan distances tie, the first index wins); but
when the carousel element is present and the card list is empty it
returns -1, not 0. -/
theorem C9_neutral_values :
    (∀ g (i : Int), (g.carouselPresent = false ∨ i < 0 ∨ (g.cards.length : Int) ≤ i ∨
      g.parentPresent = false) → getTargetX g i = 0) ∧
    (∀ g (cx : ℚ), g.carouselPresent = false → getClosestIndex g cx = 0) ∧
    (∀ g (cx : ℚ), g.carouselPresent = true → g.parentPresent = false → g.cards ≠ [] →
      getClosestIndex g cx = 0) ∧
    (∀ g (cx : ℚ), g.carouselPresent = true → g.cards = [] →
      getClosestIndex g cx = -1) := by
  refine ⟨getTargetX_eq_zero, ?_, ?_, ?_⟩
  · intro g cx hcar
    unfold getClosestIndex
    rw [if_pos hcar]
  · intro g cx hcar hpar hne
    have hall : ∀ i : Nat, distAt g cx i = |cx| := by
      intro i
      unfold distAt
      rw [getTargetX_eq_zero g (i : Int) (Or.inr (Or.inr (Or.inr hpar)))]
      rw [sub_zero]
    have hn : 0 < g.cards.length := List.length_pos.mpr hne
    rcases closest_fold_argmin g cx g.cards.length hn with ⟨r, hfold, _, _, hfirst⟩
    have hr0 : r = 0 := by
      by_contra hne0
      have h0 : 0 < r := Nat.pos_of_ne_zero hne0
      have hlt := hfirst 0 h0
      rw [hall r, hall 0] at hlt
      exact lt_irrefl _ hlt
    unfold getClosestIndex
    rw [if_neg (by simp [hcar]), hfold, hr0]
    rfl
  · intro g cx hcar hemp
    unfold getClosestIndex
    rw [if_neg (by simp [hcar]), hemp]
    rfl

/-- C9 witness: concrete instances of the three getClosestIndex cases
and of getTargetX on a missing parent. -/
theorem C9_neutral_values_witness :
    getTargetX (Geometry.mk true false 800 [⟨0, 100⟩]) 0 = 0 ∧
    getClosestIndex (Geometry.mk false true 800 [⟨0, 100⟩]) 5 = 0 ∧
    getClosestIndex (Geometry.mk true false 800 [⟨0, 100⟩]) 5 = 0 ∧
    getClosestIndex (Geometry.mk true true 800 []) 5 = -1 :=
  ⟨C9_neutral_values.1 (Geometry.mk true false 800 [⟨0, 100⟩]) 0
      (Or.inr (Or.inr (Or.inr rfl))),
   C9_neutral_values.2.1 (Geometry.mk false true 800 [⟨0, 100⟩]) 5 rfl,
   C9_neutral_values.2.2.1 (Geometry.mk true false 800 [⟨0, 100⟩]) 5 rfl rfl (by decide),
   C9_neutral_values.2.2.2 (Geometry.mk true true 800 []) 5 rfl rfl⟩

/-- C6: a primary-button pointer-down while the reducer status is
animating kills the in-flight tweens, dispatches INTERRUPT with payload
getClosestIndex evaluated at the frozen track position, so that the
resulting state is idle with currentIndex and fromIndex both equal to
that payload, and only then opens the new drag session from the
unchanged track x with the pointer captured. -/
theorem C6_pointer_down_interrupts (m : AppModel) (e : PointerEvent)
    (hb : e.button = 0) (hs : m.state.status = .animating) :
    handlePointerDown m e =
      { state := { currentIndex := getClosestIndex m.geometry m.trackX,
                   fromIndex := getClosestIndex m.geometry m.trackX,
                   status := .idle },
        displayedImage := imageAt (getClosestIndex m.geometry m.trackX),
        geometry := m.geometry, trackX := m.trackX,
        dragInfo := { isDragging := true, startX := e.clientX,
                      startCarouselX := m.trackX, pointerId := some e.pointerId },
        tweensKilled := true } ∧
    (handlePointerDown m e).state =
      carouselReducer m.state (.INTERRUPT (getClosestIndex m.geometry m.trackX)) := by
  have h : handlePointerDown m e =
      { state := { currentIndex := getClosestIndex m.geometry m.trackX,
                   fromIndex := getClosestIndex m.geometry m.trackX,
                   status := .idle },
        displayedImage := imageAt (getClosestIndex m.geometry m.trackX),
        geometry := m.geometry, trackX := m.trackX,
        dragInfo := { isDragging := true, startX := e.clientX,
                      startCarouselX := m.trackX, pointerId := some e.pointerId },
        tweensKilled := true } := by
    unfold handlePointerDown
    rw [if_neg (by simp [hb]), if_pos hs]
    rfl
  refine ⟨h, ?_⟩
  rw [h]
  rfl

/-- C6 witness: a concrete animating model whose closest index is 1;
the pointer-down interrupts to the idle state at index 1 and opens the
drag session. -/
theorem C6_pointer_down_interrupts_witness :
    handlePointerDown
        (AppModel.mk ⟨1, 0, .animating⟩ none
          (Geometry.mk true true 800 [⟨0, 100⟩, ⟨100, 100⟩]) 0
          ⟨false, 0, 0, none⟩ false)
        ⟨0, 5, 17⟩ =
      { state :=
          { currentIndex :=
              getClosestIndex (Geometry.mk true true 800 [⟨0, 100⟩, ⟨100, 100⟩]) 0,
            fromIndex :=
              getClosestIndex (Geometry.mk true true 800 [⟨0, 100⟩, ⟨100, 100⟩]) 0,
            status := .idle },
        displayedImage :=
          imageAt (getClosestIndex (Geometry.mk true true 800 [⟨0, 100⟩, ⟨100, 100⟩]) 0),
        geometry := Geometry.mk true true 800 [⟨0, 100⟩, ⟨100, 100⟩], trackX := 0,
        dragInfo := { isDragging := true, startX := 5, startCarouselX := 0,
                      pointerId := some 17 },
        tweensKilled := true } :=
  (C6_pointer_down_interrupts
    (AppModel.mk ⟨1, 0, .animating⟩ none
      (Geometry.mk true true 800 [⟨0, 100⟩, ⟨100, 100⟩]) 0 ⟨false, 0, 0, none⟩ false)
    ⟨0, 5, 17⟩ rfl rfl).1

/-- C7: releasing an active drag of the captured pointer compares the
final deltaX with the threshold of a fifth of the card width (the card
width being nonnegative, as every DOM offsetWidth is): past the
threshold to the left it dispatches exactly NEXT and starts no snap
back, past the threshold to the right it dispatches exactly PREV and
starts no snap back, and within the threshold it dispatches nothing and
calls goTo with the current index as both arguments, whose track tween
target is the exact getTargetX of the current card; the drag session
ends in each case. -/
theorem C7_release_threshold (m : AppModel) (e : PointerEvent)
    (hd : m.dragInfo.isDragging = true) (hp : m.dragInfo.pointerId = some e.pointerId)
    (hw : 0 ≤ firstCardWidth m.geometry) :
    (e.clientX - m.dragInfo.startX < -(firstCardWidth m.geometry / 5) →
      handlePointerUp m e =
        { model := { m with dragInfo := { m.dragInfo with isDragging := false } },
          dispatched := some .NEXT, goToCall := none }) ∧
    (firstCardWidth m.geometry / 5 < e.clientX - m.dragInfo.startX →
      handlePointerUp m e =
        { model := { m with dragInfo := { m.dragInfo with isDragging := false } },
          dispatched := some .PREV, goToCall := none }) ∧
    (|e.clientX - m.dragInfo.startX| ≤ firstCardWidth m.geometry / 5 →
      handlePointerUp m e =
        { model := { m with dragInfo := { m.dragInfo with isDragging := false } },
          dispatched := none,
          goToCall := some (m.state.currentIndex, m.state.currentIndex) } ∧
      ∀ eff, goTo m.geometry m.state.currentIndex m.state.currentIndex = some eff →
        eff.trackTarget = getTargetX m.geometry m.state.currentIndex) := by
  have hguard : ¬ (m.dragInfo.isDragging = false ∨
      m.dragInfo.pointerId ≠ some e.pointerId) := by
    simp [hd, hp]
  have ht : (0 : ℚ) ≤ firstCardWidth m.geometry / 5 := by positivity
  refine ⟨?_, ?_, ?_⟩
  · intro hlt
    unfold handlePointerUp
    rw [if_neg hguard, if_pos hlt]
  · intro hgt
    unfold handlePointerUp
    rw [if_neg hguard, if_neg (by linarith), if_pos hgt]
  · intro habs
    rcases abs_le.mp habs with ⟨hlow, hhigh⟩
    constructor
    · unfold handlePointerUp
      rw [if_neg hguard, if_neg (by linarith), if_neg (by linarith)]
    · intro eff heff
      unfold goTo at heff
      by_cases hrange : m.state.currentIndex < 0 ∨
          (m.geometry.cards.length : Int) ≤ m.state.currentIndex
      · rw [if_pos hrange] at heff
        exact absurd heff (by simp)
      · rw [if_neg hrange] at heff
        rw [← Option.some.inj heff]

/-- C7 witness: a concrete drag of 50 pixels to the left against a card
width of 100 (threshold 20) dispatches NEXT and makes no goTo call. -/
theorem C7_release_threshold_witness :
    handlePointerUp
        (AppModel.mk ⟨0, 0, .idle⟩ none
          (Geometry.mk true true 800 [⟨0, 100⟩, ⟨100, 100⟩]) 0
          ⟨true, 100, 0, some 17⟩ false)
        ⟨0, 50, 17⟩ =
      { model := AppModel.mk ⟨0, 0, .idle⟩ none
          (Geometry.mk true true 800 [⟨0, 100⟩, ⟨100, 100⟩]) 0
          ⟨false, 100, 0, some 17⟩ false,
        dispatched := some .NEXT, goToCall := none } :=
  (C7_release_threshold
    (AppModel.mk ⟨0, 0, .idle⟩ none
      (Geometry.mk true true 800 [⟨0, 100⟩, ⟨100, 100⟩]) 0
      ⟨true, 100, 0, some 17⟩ false)
    ⟨0, 50, 17⟩ rfl rfl (by norm_num [firstCardWidth])).1 (by norm_num [firstCardWidth])

/-- C8: for an in-range destination index, goTo always tweens the track
to the target x of the destination; when the source and destination
indices differ, the push keyframe starts every card with index below
the destination at minus pushAmount, every card above it at plus
pushAmount, and the destination card itself at 0, after which every
card settles back to x 0; when they coincide, no push keyframe runs and
every card only settles to x 0. -/
theorem C8_push_then_settle (g : Geometry) (f t : Int)
    (h0 : 0 ≤ t) (h1 : t < (g.cards.length : Int)) :
    ∃ eff, goTo g f t = some eff ∧
      eff.trackTarget = getTargetX g t ∧
      (f ≠ t → ∃ l, eff.pushOffsets = some l ∧ l.length = g.cards.length ∧
        ∀ i, i < g.cards.length →
          l.get? i = some (if (i : Int) < t then -pushAmount
            else if t < (i : Int) then pushAmount else 0)) ∧
      (f = t → eff.pushOffsets = none) ∧
      eff.settleOffsets.length = g.cards.length ∧
      (∀ x ∈ eff.settleOffsets, x = 0) := by
  have hcond : ¬ (t < 0 ∨ (g.cards.length : Int) ≤ t) := by omega
  unfold goTo
  rw [if_neg hcond]
  refine ⟨_, rfl, rfl, ?_, ?_, by simp, by simp⟩
  · intro hft
    refine ⟨(List.range g.cards.length).map (pushKeyframeX t), ?_, by simp, ?_⟩
    · simp only [if_pos hft]
    · intro i hi
      rw [List.get?_map, List.get?_range hi]
      rfl
  · intro hft
    simp only [hft, ne_eq, not_true_eq_false, if_false]

/-- C8 witness: the theorem instantiated at the concrete two-card
geometry with a transition from index 0 to index 1. -/
theorem C8_push_then_settle_witness :
    ∃ eff, goTo (Geometry.mk true true 800 [⟨0, 100⟩, ⟨100, 100⟩]) 0 1 = some eff ∧
      eff.trackTarget = getTargetX (Geometry.mk true true 800 [⟨0, 100⟩, ⟨100, 100⟩]) 1 ∧
      ((0 : Int) ≠ 1 → ∃ l, eff.pushOffsets = some l ∧
        l.length = (Geometry.mk true true 800 [⟨0, 100⟩, ⟨100, 100⟩]).cards.length ∧
        ∀ i, i < (Geometry.mk true true 800 [⟨0, 100⟩, ⟨100, 100⟩]).cards.length →
          l.get? i = some (if (i : Int) < 1 then -pushAmount
            else if 1 < (i : Int) then pushAmount else 0)) ∧
      ((0 : Int) = 1 → eff.pushOffsets = none) ∧
      eff.settleOffsets.length =
        (Geometry.mk true true 800 [⟨0, 100⟩, ⟨100, 100⟩]).cards.length ∧
      (∀ x ∈ eff.settleOffsets, x = 0) :=
  C8_push_then_settle (Geometry.mk true true 800 [⟨0, 100⟩, ⟨100, 100⟩]) 0 1
    (by decide) (by decide)
